import Mathlib

/-!
Verification development for the CRM-UI repository.

The core under specification is the ticket-status donut chart of
`src/src/pages/Dashboard/DashboardHome.tsx` (namespace `CRM.Dashboard`),
its near-duplicate in the unnamed dashboard file `src/unnamed/part_001`
(namespace `CRM.Dashboard2`), and the role-gated company list page of
`src/unnamed/part_000` (namespace `CRM.CompanyPage`).

Modelling conventions:
- A JavaScript record `Record<string, number>` is modelled as an
  association list `List (String × ℚ)`; `data[k]` is `List.lookup k data`,
  which returns `none` exactly when the key is absent (JS `undefined`).
- JavaScript numbers are idealised as rationals `ℚ`.
- The SVG circumference `2 * Math.PI * radius` is irrational, so the
  rendering functions are parameterised by an arbitrary circumference
  `c : ℚ`; every statement proved is an identity in `c`.
-/

set_option linter.unusedVariables false
set_option linter.unnecessarySeqFocus false

namespace CRM

/-- The `data` prop of `DonutChart`: a JS record of status label to count. -/
abbrev CountsMap := List (String × ℚ)

/-- JS member access `data[status]` in a numeric context where the code has
already established presence: absent keys default to `0`.  In the source the
default branch is unreachable because access follows the `data[status] > 0`
filter. -/
def valueOf (data : CountsMap) (status : String) : ℚ :=
  (data.lookup status).getD 0

/-- One element of the `segments` array built in `DonutChart`
(`DashboardHome.tsx` lines 104-111): status, raw count, true percentage and
the color looked up in the `colors` record. -/
structure Segment where
  status : String
  count : ℚ
  percentage : ℚ
  color : Option String
deriving DecidableEq

/-- One rendered `<circle>` segment element (`DashboardHome.tsx` lines
142-169): its stroke dash-array arc length and dash offset, plus the
status label captured by its `onClick` closure. -/
structure RenderedSegment where
  status : String
  color : Option String
  dashArray : ℚ
  dashOffset : ℚ
deriving DecidableEq

/-- The two rendering branches of `DonutChart`: the explicit empty-state
placeholder taken when `total === 0` (lines 81-93), or the chart with its
list of rendered segments. -/
inductive RenderResult where
  | emptyState : RenderResult
  | chart : List RenderedSegment → RenderResult
deriving DecidableEq

/-- Observable effects of `handleCardClick` (`DashboardHome.tsx` lines
68-74): the route passed to `navigate`, and the list of arguments with
which the external `onNavigateToTickets` callback is invoked (empty when
the optional callback prop is absent). -/
structure ClickEffect where
  navigateTo : String
  callbackCalls : List String
deriving DecidableEq

namespace Dashboard

/-- Fixed category order (`DashboardHome.tsx` line 103). -/
def statusOrder : List String :=
  ["OPEN", "PENDING", "INPROGRESS", "CLOSED", "COMPLETED"]

/-- The `colors` record (`DashboardHome.tsx` lines 95-101). -/
def colors : List (String × String) :=
  [("OPEN", "#3b82f6"), ("PENDING", "#ef4444"), ("INPROGRESS", "#f59e0b"),
   ("CLOSED", "#6b7280"), ("COMPLETED", "#10b981")]

/-- `total = Object.values(data).reduce((sum, count) => sum + count, 0)`
(`DashboardHome.tsx` line 78): the sum of every value of the record,
whatever its key. -/
def total (data : CountsMap) : ℚ :=
  (data.map Prod.snd).sum

/-- The filter predicate `data[status] > 0` (`DashboardHome.tsx` line 105).
A missing key gives JS `undefined > 0`, which is `false`. -/
def hasPositive (data : CountsMap) (status : String) : Bool :=
  match data.lookup status with
  | some v => decide (0 < v)
  | none => false

/-- The `segments` array (`DashboardHome.tsx` lines 104-111): statuses of
`statusOrder` with positive count, in order, each with its count, true
percentage `data[status] / total * 100` and color. -/
def segments (data : CountsMap) : List Segment :=
  (statusOrder.filter (fun status => hasPositive data status)).map fun status =>
    { status := status
      count := valueOf data status
      percentage := valueOf data status / total data * 100
      color := colors.lookup status }

/-- `minVisiblePercentage` (`DashboardHome.tsx` line 136). -/
def minVisiblePercentage : ℚ := 0.5

/-- Chart width and height in pixels (`DashboardHome.tsx` line 113). -/
def size : ℚ := 280

/-- Stroke width in pixels (`DashboardHome.tsx` line 114). -/
def strokeWidth : ℚ := 35

/-- `radius = (size - strokeWidth) / 2` (`DashboardHome.tsx` line 115).
The true circumference `2 * Math.PI * radius` is irrational, so rendering
below is parameterised by an arbitrary circumference `c`. -/
def radius : ℚ := (size - strokeWidth) / 2

/-- The `segments.map` render loop (`DashboardHome.tsx` lines 135-170),
with the mutable `accumulatedPercentage` made an explicit accumulator:
`displayPercentage = max(percentage, minVisiblePercentage)`,
`dashArray = displayPercentage / 100 * c`,
`dashOffset = -accumulatedPercentage * c / 100`, and the accumulator
advances by the segment's true `percentage`. -/
def renderFrom (c : ℚ) : List Segment → ℚ → List RenderedSegment
  | [], _ => []
  | seg :: rest, accumulatedPercentage =>
    { status := seg.status
      color := seg.color
      dashArray := max seg.percentage minVisiblePercentage / 100 * c
      dashOffset := -accumulatedPercentage * c / 100 }
      :: renderFrom c rest (accumulatedPercentage + seg.percentage)

/-- The rendered segment list of the chart branch: the render loop started
with `accumulatedPercentage = 0` (`DashboardHome.tsx` line 118). -/
def renderSegments (data : CountsMap) (c : ℚ) : List RenderedSegment :=
  renderFrom c (segments data) 0

/-- The whole `DonutChart` component (`DashboardHome.tsx` lines 77-197):
the `total === 0` early return gives the empty-state placeholder, any
other total gives the chart with its rendered segments. -/
def DonutChart (data : CountsMap) (c : ℚ) : RenderResult :=
  if total data = 0 then RenderResult.emptyState
  else RenderResult.chart (renderSegments data c)

/-- `handleCardClick` (`DashboardHome.tsx` lines 68-74): navigates to the
filtered ticket view and, when the `onNavigateToTickets` prop is present,
invokes it once with the status label. -/
def handleCardClick (hasCallback : Bool) (status : String) : ClickEffect :=
  { navigateTo := "/home/ticket/show?status=" ++ status
    callbackCalls := if hasCallback then [status] else [] }

end Dashboard

namespace Dashboard2

/-- Fixed category order of the duplicate chart (`part_001` line 107). -/
def statusOrder : List String :=
  ["OPEN", "PENDING", "INPROGRESS", "CLOSED", "COMPLETED"]

/-- The `colors` record of the duplicate chart (`part_001` lines 98-104). -/
def colors : List (String × String) :=
  [("OPEN", "#3b82f6"), ("PENDING", "#ef4444"), ("INPROGRESS", "#f59e0b"),
   ("CLOSED", "#6b7280"), ("COMPLETED", "#10b981")]

/-- `total` of the duplicate chart (`part_001` line 82). -/
def total (data : CountsMap) : ℚ :=
  (data.map Prod.snd).sum

/-- The filter predicate `data[status] > 0` of the duplicate chart
(`part_001` line 109). -/
def hasPositive (data : CountsMap) (status : String) : Bool :=
  match data.lookup status with
  | some v => decide (0 < v)
  | none => false

/-- The `segments` array of the duplicate chart (`part_001` lines 108-115). -/
def segments (data : CountsMap) : List Segment :=
  (statusOrder.filter (fun status => hasPositive data status)).map fun status =>
    { status := status
      count := valueOf data status
      percentage := valueOf data status / total data * 100
      color := colors.lookup status }

/-- `minVisiblePercentage` of the duplicate chart (`part_001` line 142). -/
def minVisiblePercentage : ℚ := 0.5

/-- The `segments.map` render loop of the duplicate chart (`part_001`
lines 140-167); identical arc arithmetic, no tooltip handlers. -/
def renderFrom (c : ℚ) : List Segment → ℚ → List RenderedSegment
  | [], _ => []
  | seg :: rest, accumulatedPercentage =>
    { status := seg.status
      color := seg.color
      dashArray := max seg.percentage minVisiblePercentage / 100 * c
      dashOffset := -accumulatedPercentage * c / 100 }
      :: renderFrom c rest (accumulatedPercentage + seg.percentage)

/-- Rendered segments of the duplicate chart, accumulator started at `0`
(`part_001` line 123). -/
def renderSegments (data : CountsMap) (c : ℚ) : List RenderedSegment :=
  renderFrom c (segments data) 0

/-- The duplicate `DonutChart` component (`part_001` lines 81-180), with
its own `total === 0` empty-state branch (lines 84-96). -/
def DonutChart (data : CountsMap) (c : ℚ) : RenderResult :=
  if total data = 0 then RenderResult.emptyState
  else RenderResult.chart (renderSegments data c)

end Dashboard2

namespace CompanyPage

/-- The `Company` record of `part_000` lines 7-14. -/
structure Company where
  id : ℚ
  name : String
  email : String
  phone : String
  address : String
  logo : String
deriving DecidableEq

/-- The `UserData` record of `part_000` lines 16-22. -/
structure UserData where
  id : Option ℚ
  departmentId : ℚ
  departmentName : Option String
  name : String
  email : Option String
deriving DecidableEq

/-- Toast notifications emitted by the company page handlers.  The exact
message strings of the source are abstracted to constructors; a server-side
failure carries the message of the response. -/
inductive ToastMessage where
  | errorNoPermissionEdit : ToastMessage
  | errorNoPermissionDelete : ToastMessage
  | errorServer : String → ToastMessage
  | successUpdated : ToastMessage
  | successDeleted : ToastMessage
deriving DecidableEq

/-- `isSuperAdmin = userData?.departmentId === 1` (`part_000` line 34);
a `null` `userData` gives `undefined === 1`, which is `false`. -/
def isSuperAdmin (userData : Option UserData) : Bool :=
  match userData with
  | some u => u.departmentId == 1
  | none => false

/-- The Actions table column renders exactly under
`{isSuperAdmin && <th>Actions</th>}` (`part_000` lines 285-287, and the
matching per-row cell at lines 311-329). -/
def renderActionsColumn (userData : Option UserData) : Bool :=
  isSuperAdmin userData

/-- `handleUpdate` (`part_000` lines 164-187), returning whether the PUT
request was issued and the toasts shown.  A missing selection returns
early; a non-SuperAdmin gets the permission error and no request;
otherwise the request outcome `apiCode1` selects success or the server
error message. -/
def handleUpdate (userData : Option UserData) (selectedCompany : Option Company)
    (apiCode1 : Bool) (serverMessage : String) : Bool × List ToastMessage :=
  match selectedCompany with
  | none => (false, [])
  | some _ =>
    if !isSuperAdmin userData then (false, [ToastMessage.errorNoPermissionEdit])
    else if apiCode1 then (true, [ToastMessage.successUpdated])
    else (true, [ToastMessage.errorServer serverMessage])

/-- `handleDelete` (`part_000` lines 189-212), returning the new companies
list and the toasts shown.  A missing selection returns early; a
non-SuperAdmin gets the permission error and the list is untouched; a
successful request filters out the selected id; a failed one leaves the
list untouched. -/
def handleDelete (userData : Option UserData) (selectedCompany : Option Company)
    (companies : List Company) (apiCode1 : Bool) (serverMessage : String) :
    List Company × List ToastMessage :=
  match selectedCompany with
  | none => (companies, [])
  | some sel =>
    if !isSuperAdmin userData then (companies, [ToastMessage.errorNoPermissionDelete])
    else if apiCode1 then
      (companies.filter (fun c => c.id != sel.id), [ToastMessage.successDeleted])
    else (companies, [ToastMessage.errorServer serverMessage])

/-- `handleEditClick` (`part_000` lines 220-227): toasts shown, selection
made and whether the edit modal opens. -/
def handleEditClick (userData : Option UserData) (company : Company) :
    List ToastMessage × Option Company × Bool :=
  if !isSuperAdmin userData then ([ToastMessage.errorNoPermissionEdit], none, false)
  else ([], some company, true)

/-- `handleDeleteClick` (`part_000` lines 230-237): toasts shown, selection
made and whether the delete modal opens. -/
def handleDeleteClick (userData : Option UserData) (company : Company) :
    List ToastMessage × Option Company × Bool :=
  if !isSuperAdmin userData then ([ToastMessage.errorNoPermissionDelete], none, false)
  else ([], some company, true)

end CompanyPage

/-! ## Supporting lemmas -/

/-- Looking up a key that is not among the keys of an association list
returns `none`. -/
theorem lookup_eq_none_of_not_mem_keys {l : CountsMap} {k : String}
    (h : k ∉ l.map Prod.fst) : l.lookup k = none := by
  rw [List.lookup_eq_none_iff]
  intro p hp
  simp only [bne_iff_ne, ne_eq]
  intro hk
  exact h (List.mem_map.mpr ⟨p, hp, hk.symm⟩)

/-- A successful lookup returns a pair of the list. -/
theorem mem_of_lookup_eq_some {l : CountsMap} {k : String} {v : ℚ}
    (h : l.lookup k = some v) : (k, v) ∈ l := by
  obtain ⟨l₁, l₂, rfl, -⟩ := List.lookup_eq_some_iff.mp h
  exact List.mem_append.mpr (Or.inr (List.mem_cons_self _ _))

/-- Unfolding `valueOf` over a cons cell. -/
theorem valueOf_cons (k : String) (v : ℚ) (rest : CountsMap) (s : String) :
    valueOf ((k, v) :: rest) s = if s = k then v else valueOf rest s := by
  unfold valueOf
  rw [List.lookup_cons]
  cases hb : s == k with
  | true => simp [eq_of_beq hb]
  | false =>
    have hne : s ≠ k := by
      intro he
      rw [he] at hb
      simp at hb
    simp [hne]

/-- Summing `valueOf` over the five fixed statuses gives the grand total,
provided the keys of the map are valid statuses and are not repeated. -/
theorem sum_valueOf_statusOrder (data : CountsMap)
    (hkeys : ∀ kv ∈ data, kv.1 ∈ Dashboard.statusOrder)
    (hnd : (data.map Prod.fst).Nodup) :
    (Dashboard.statusOrder.map (valueOf data)).sum = Dashboard.total data := by
  induction data with
  | nil => simp [Dashboard.statusOrder, valueOf, Dashboard.total]
  | cons kv rest ih =>
    obtain ⟨k, v⟩ := kv
    simp only [List.map_cons, List.nodup_cons] at hnd
    obtain ⟨hknot, hndr⟩ := hnd
    have hmem : k ∈ Dashboard.statusOrder := hkeys (k, v) (List.mem_cons_self _ _)
    have ihr := ih (fun kv h => hkeys kv (List.mem_cons_of_mem _ h)) hndr
    have hz : valueOf rest k = 0 := by
      unfold valueOf
      rw [lookup_eq_none_of_not_mem_keys hknot]
      rfl
    have htot : Dashboard.total ((k, v) :: rest) = v + Dashboard.total rest := by
      simp [Dashboard.total]
    rw [htot]
    simp only [Dashboard.statusOrder, List.map_cons, List.map_nil, List.sum_cons,
      List.sum_nil, valueOf_cons] at ihr ⊢
    fin_cases hmem <;> simp_all <;> linarith

/-- With non-negative counts, a status rejected by the positivity filter
has value `0`. -/
theorem valueOf_eq_zero_of_hasPositive_false (data : CountsMap)
    (hpos : ∀ kv ∈ data, 0 ≤ kv.2) (s : String)
    (h : Dashboard.hasPositive data s = false) : valueOf data s = 0 := by
  unfold Dashboard.hasPositive at h
  unfold valueOf
  cases hl : data.lookup s with
  | none => rfl
  | some v =>
    rw [hl] at h
    simp only [decide_eq_false_iff_not, not_lt] at h
    have hv := hpos (s, v) (mem_of_lookup_eq_some hl)
    simp only [Option.getD_some]
    exact le_antisymm h hv

/-- With non-negative counts, dropping the statuses rejected by the
positivity filter does not change the sum of values. -/
theorem sum_filter_valueOf (data : CountsMap) (hpos : ∀ kv ∈ data, 0 ≤ kv.2) :
    ∀ L : List String,
      ((L.filter (fun s => Dashboard.hasPositive data s)).map (valueOf data)).sum =
        (L.map (valueOf data)).sum := by
  intro L
  induction L with
  | nil => rfl
  | cons s L ih =>
    cases h : Dashboard.hasPositive data s with
    | true => simp [List.filter_cons, h, ih]
    | false =>
      simp [List.filter_cons, h, ih, valueOf_eq_zero_of_hasPositive_false data hpos s h]

/-- Dividing by the total and scaling to percent commutes with summation. -/
theorem sum_map_div_mul (T : ℚ) (g : String → ℚ) :
    ∀ L : List String,
      (L.map (fun s => g s / T * 100)).sum = (L.map g).sum / T * 100 := by
  intro L
  induction L with
  | nil => simp
  | cons s L ih => simp [ih, add_div, add_mul]

/-- The render loop emits one element per segment. -/
theorem renderFrom_length (c : ℚ) :
    ∀ (l : List Segment) (acc : ℚ),
      (Dashboard.renderFrom c l acc).length = l.length := by
  intro l
  induction l with
  | nil => intro acc; rfl
  | cons seg rest ih => intro acc; simp [Dashboard.renderFrom, ih]

/-- Closed form of the element at index `i` of the render loop: the arc
length applies the visibility floor to the true percentage, and the dash
offset accumulates only the true percentages of the preceding segments. -/
theorem renderFrom_get (c : ℚ) :
    ∀ (l : List Segment) (acc : ℚ) (i : ℕ)
      (h1 : i < (Dashboard.renderFrom c l acc).length) (h2 : i < l.length),
      (Dashboard.renderFrom c l acc).get ⟨i, h1⟩ =
        { status := (l.get ⟨i, h2⟩).status
          color := (l.get ⟨i, h2⟩).color
          dashArray := max (l.get ⟨i, h2⟩).percentage Dashboard.minVisiblePercentage / 100 * c
          dashOffset := -(acc + ((l.take i).map Segment.percentage).sum) * c / 100 } := by
  intro l
  induction l with
  | nil => intro acc i h1 h2; exact absurd h2 (Nat.not_lt_zero i)
  | cons seg rest ih =>
    intro acc i h1 h2
    cases i with
    | zero => simp [Dashboard.renderFrom]
    | succ n =>
      have h1r : n < (Dashboard.renderFrom c rest (acc + seg.percentage)).length := by
        rw [renderFrom_length]
        rw [renderFrom_length] at h1
        exact Nat.lt_of_succ_lt_succ h1
      have h2r : n < rest.length := Nat.lt_of_succ_lt_succ h2
      have hstep : (Dashboard.renderFrom c (seg :: rest) acc).get ⟨n + 1, h1⟩ =
          (Dashboard.renderFrom c rest (acc + seg.percentage)).get ⟨n, h1r⟩ := by
        simp [Dashboard.renderFrom]
      rw [hstep, ih (acc + seg.percentage) n h1r h2r]
      simp [add_assoc]

/-! ## Claim theorems -/

/-- C1: for every counts map with total `T > 0` and every rendered segment
(the segments are exactly the categories with positive count), the rendered
arc length `dashArray` equals `max(truePercentage, minVisiblePercentage) / 100`
of the circumference `c`: the true share of the circle when the true
percentage is at least the `0.5` floor, and exactly `0.5 / 100 * c` when the
positive true percentage is below the floor. -/
theorem C1_arc_length_visibility_floor (data : CountsMap) (c : ℚ)
    (ht : 0 < Dashboard.total data) (i : ℕ)
    (hi : i < (Dashboard.segments data).length)
    (hri : i < (Dashboard.renderSegments data c).length) :
    ((Dashboard.renderSegments data c).get ⟨i, hri⟩).dashArray =
        max ((Dashboard.segments data).get ⟨i, hi⟩).percentage
          Dashboard.minVisiblePercentage / 100 * c
      ∧ (Dashboard.minVisiblePercentage ≤ ((Dashboard.segments data).get ⟨i, hi⟩).percentage →
          ((Dashboard.renderSegments data c).get ⟨i, hri⟩).dashArray =
            ((Dashboard.segments data).get ⟨i, hi⟩).percentage / 100 * c)
      ∧ (0 < ((Dashboard.segments data).get ⟨i, hi⟩).percentage →
          ((Dashboard.segments data).get ⟨i, hi⟩).percentage < Dashboard.minVisiblePercentage →
          ((Dashboard.renderSegments data c).get ⟨i, hri⟩).dashArray =
            Dashboard.minVisiblePercentage / 100 * c) := by
  have hg := renderFrom_get c (Dashboard.segments data) 0 i hri hi
  unfold Dashboard.renderSegments
  rw [hg]
  refine ⟨rfl, ?_, ?_⟩
  · intro h
    simp only [max_eq_left h]
  · intro h0 hlt
    simp only [max_eq_right (le_of_lt hlt)]

/-- C2: the dash offset of the rendered segment at index `i` is minus the
cumulative sum of the true (not display-adjusted) percentages of the
strictly-preceding rendered segments, scaled to the circumference: the
visibility floor appears nowhere in the offset, so it never shifts a
following segment. -/
theorem C2_start_offset_cumulative_true_percentage (data : CountsMap) (c : ℚ) (i : ℕ)
    (hri : i < (Dashboard.renderSegments data c).length)
    (hi : i < (Dashboard.segments data).length) :
    ((Dashboard.renderSegments data c).get ⟨i, hri⟩).dashOffset =
      -((((Dashboard.segments data).take i).map Segment.percentage).sum) * c / 100 := by
  have hg := renderFrom_get c (Dashboard.segments data) 0 i hri hi
  unfold Dashboard.renderSegments
  rw [hg]
  norm_num

/-- C3: for a counts map satisfying the input contract (keys among the five
statuses, no repeated key, non-negative counts) with total `T > 0`, the true
percentages of the rendered segments sum to exactly `100`. -/
theorem C3_true_percentages_sum_to_100 (data : CountsMap)
    (hkeys : ∀ kv ∈ data, kv.1 ∈ Dashboard.statusOrder)
    (hnd : (data.map Prod.fst).Nodup)
    (hpos : ∀ kv ∈ data, 0 ≤ kv.2)
    (ht : 0 < Dashboard.total data) :
    ((Dashboard.segments data).map Segment.percentage).sum = 100 := by
  unfold Dashboard.segments
  rw [List.map_map]
  have h1 : (Segment.percentage ∘ fun status =>
      ({ status := status, count := valueOf data status,
         percentage := valueOf data status / Dashboard.total data * 100,
         color := Dashboard.colors.lookup status } : Segment)) =
      fun status => valueOf data status / Dashboard.total data * 100 := rfl
  rw [h1, sum_map_div_mul, sum_filter_valueOf data hpos,
    sum_valueOf_statusOrder data hkeys hnd, div_self (ne_of_gt ht), one_mul]

/-- Witness for C1 at `{OPEN: 1, PENDING: 499}` with circumference `200`:
the OPEN segment has true percentage `0.2 < 0.5`, so its arc length is the
floor share `0.5 / 100 * 200`. -/
theorem C1_witness :
    ((Dashboard.renderSegments [("OPEN", (1 : ℚ)), ("PENDING", 499)] 200).get
        ⟨0, by simp [Dashboard.renderSegments, Dashboard.renderFrom, Dashboard.segments,
          Dashboard.statusOrder, Dashboard.hasPositive, List.lookup]⟩).dashArray =
      Dashboard.minVisiblePercentage / 100 * 200 := by
  have hi : 0 < (Dashboard.segments [("OPEN", (1 : ℚ)), ("PENDING", 499)]).length := by
    simp [Dashboard.segments, Dashboard.statusOrder, Dashboard.hasPositive, List.lookup]
  have hri : 0 < (Dashboard.renderSegments [("OPEN", (1 : ℚ)), ("PENDING", 499)] 200).length := by
    unfold Dashboard.renderSegments
    rw [renderFrom_length]
    exact hi
  have h := C1_arc_length_visibility_floor [("OPEN", (1 : ℚ)), ("PENDING", 499)] 200
    (by norm_num [Dashboard.total]) 0 hi hri
  have hp : ((Dashboard.segments [("OPEN", (1 : ℚ)), ("PENDING", 499)]).get
      ⟨0, hi⟩).percentage = 1 / 5 := by
    simp [Dashboard.segments, Dashboard.statusOrder, Dashboard.hasPositive,
      Dashboard.total, valueOf, List.lookup]
    norm_num
  exact h.2.2 (by rw [hp]; norm_num) (by rw [hp]; norm_num [Dashboard.minVisiblePercentage])

/-- Witness for C2 at `{OPEN: 1, PENDING: 1}` with circumference `100`: the
second rendered segment starts after the true `50%` share of the first. -/
theorem C2_witness :
    ((Dashboard.renderSegments [("OPEN", (1 : ℚ)), ("PENDING", 1)] 100).get
        ⟨1, by simp [Dashboard.renderSegments, Dashboard.renderFrom, Dashboard.segments,
          Dashboard.statusOrder, Dashboard.hasPositive, List.lookup]⟩).dashOffset =
      -((((Dashboard.segments [("OPEN", (1 : ℚ)), ("PENDING", 1)]).take 1).map
          Segment.percentage).sum) * 100 / 100 := by
  have hi : 1 < (Dashboard.segments [("OPEN", (1 : ℚ)), ("PENDING", 1)]).length := by
    simp [Dashboard.segments, Dashboard.statusOrder, Dashboard.hasPositive, List.lookup]
  have hri : 1 < (Dashboard.renderSegments [("OPEN", (1 : ℚ)), ("PENDING", 1)] 100).length := by
    unfold Dashboard.renderSegments
    rw [renderFrom_length]
    exact hi
  exact C2_start_offset_cumulative_true_percentage [("OPEN", (1 : ℚ)), ("PENDING", 1)] 100 1 hri hi

/-- Witness for C3 at `{OPEN: 2, CLOSED: 3}`: the two true percentages
(`40` and `60`) sum to `100`. -/
theorem C3_witness :
    ((Dashboard.segments [("OPEN", (2 : ℚ)), ("CLOSED", 3)]).map Segment.percentage).sum = 100 := by
  have h := C3_true_percentages_sum_to_100 [("OPEN", (2 : ℚ)), ("CLOSED", 3)]
    (by simp [Dashboard.statusOrder]) (by simp) (by norm_num) (by norm_num [Dashboard.total])
  exact h

/-- C4: the segment list carries exactly the categories of `statusOrder`
with positive count, in `statusOrder` order (it is the order-preserving
filter of `statusOrder`, hence a sublist of it, with each qualifying
category occurring exactly once), independent of count magnitudes; in
particular `{OPEN: 1, COMPLETED: 1000}` yields the OPEN segment first,
starting at dash offset `0`. -/
theorem C4_segments_follow_category_order (data : CountsMap) (c : ℚ) :
    (Dashboard.segments data).map Segment.status =
        Dashboard.statusOrder.filter (fun s => Dashboard.hasPositive data s)
      ∧ List.Sublist ((Dashboard.segments data).map Segment.status) Dashboard.statusOrder
      ∧ (∀ s, ((Dashboard.segments data).map Segment.status).count s =
          if s ∈ Dashboard.statusOrder ∧ Dashboard.hasPositive data s = true then 1 else 0)
      ∧ (Dashboard.segments [("OPEN", (1 : ℚ)), ("COMPLETED", 1000)]).map Segment.status =
          ["OPEN", "COMPLETED"]
      ∧ (Dashboard.renderSegments [("OPEN", (1 : ℚ)), ("COMPLETED", 1000)] c).head?.map
          RenderedSegment.dashOffset = some 0 := by
  have hmap : (Dashboard.segments data).map Segment.status =
      Dashboard.statusOrder.filter (fun s => Dashboard.hasPositive data s) := by
    unfold Dashboard.segments
    rw [List.map_map]
    show (Dashboard.statusOrder.filter fun status =>
      Dashboard.hasPositive data status).map (fun status => status) = _
    simp
  refine ⟨hmap, ?_, ?_, ?_, ?_⟩
  · rw [hmap]
    exact List.filter_sublist _
  · intro s
    rw [hmap]
    by_cases hs : s ∈ Dashboard.statusOrder ∧ Dashboard.hasPositive data s = true
    · rw [if_pos hs]
      rw [List.count_filter hs.2]
      exact List.count_eq_one_of_mem (by decide) hs.1
    · rw [if_neg hs]
      rw [List.count_eq_zero]
      intro hmem
      rw [List.mem_filter] at hmem
      exact hs ⟨hmem.1, hmem.2⟩
  · simp [Dashboard.segments, Dashboard.statusOrder, Dashboard.hasPositive, List.lookup]
  · have hseg : Dashboard.segments [("OPEN", (1 : ℚ)), ("COMPLETED", 1000)] =
        [{ status := "OPEN", count := 1, percentage := 1 / Dashboard.total
             [("OPEN", (1 : ℚ)), ("COMPLETED", 1000)] * 100,
           color := Dashboard.colors.lookup "OPEN" },
         { status := "COMPLETED", count := 1000, percentage := 1000 / Dashboard.total
             [("OPEN", (1 : ℚ)), ("COMPLETED", 1000)] * 100,
           color := Dashboard.colors.lookup "COMPLETED" }] := by
      simp [Dashboard.segments, Dashboard.statusOrder, Dashboard.hasPositive,
        valueOf, List.lookup]
    unfold Dashboard.renderSegments
    rw [hseg]
    simp [Dashboard.renderFrom]

/-- C5: a zero total takes the distinct empty-state branch of the chart,
which draws no segment list at all. -/
theorem C5_zero_total_empty_state (data : CountsMap) (c : ℚ)
    (h : Dashboard.total data = 0) :
    Dashboard.DonutChart data c = RenderResult.emptyState
      ∧ ∀ segs, Dashboard.DonutChart data c ≠ RenderResult.chart segs := by
  constructor
  · simp [Dashboard.DonutChart, h]
  · intro segs
    simp [Dashboard.DonutChart, h]

/-- Witness for C5 at the all-zero counts map. -/
theorem C5_witness :
    Dashboard.DonutChart [("OPEN", (0 : ℚ)), ("PENDING", 0), ("INPROGRESS", 0),
      ("CLOSED", 0), ("COMPLETED", 0)] 1 = RenderResult.emptyState :=
  (C5_zero_total_empty_state [("OPEN", (0 : ℚ)), ("PENDING", 0), ("INPROGRESS", 0),
    ("CLOSED", 0), ("COMPLETED", 0)] 1 (by norm_num [Dashboard.total])).1

/-- Counterexample to C6 as stated: adding the unknown key `EXTRA` with
count `1` to `{OPEN: 1}` changes the computed total from `1` to `2` and
changes OPEN's percentage from `100` to `50`, because `total` sums every
value of the record whatever its key. -/
theorem C6_counterexample :
    Dashboard.total [("OPEN", (1 : ℚ)), ("EXTRA", 1)] = 2
      ∧ Dashboard.total [("OPEN", (1 : ℚ))] = 1
      ∧ (Dashboard.segments [("OPEN", (1 : ℚ)), ("EXTRA", 1)]).map Segment.percentage = [50]
      ∧ (Dashboard.segments [("OPEN", (1 : ℚ))]).map Segment.percentage = [100] := by
  refine ⟨by norm_num [Dashboard.total], by norm_num [Dashboard.total], ?_, ?_⟩
  · simp [Dashboard.segments, Dashboard.statusOrder, Dashboard.hasPositive, Dashboard.total,
      valueOf, List.lookup]
    norm_num
  · simp [Dashboard.segments, Dashboard.statusOrder, Dashboard.hasPositive, Dashboard.total,
      valueOf, List.lookup]

/-- C6 amended: an extra key not in `categoryOrder` never yields a segment,
but its value is added to the computed total, and every valid segment's
percentage is computed against that inflated total (so a nonzero extra
value does change the percentages of the valid categories). -/
theorem C6_amended_unknown_key_no_segment_but_counted (data : CountsMap) (k : String) (v : ℚ)
    (hk : k ∉ Dashboard.statusOrder) :
    (∀ seg ∈ Dashboard.segments (data ++ [(k, v)]), seg.status ≠ k)
      ∧ Dashboard.total (data ++ [(k, v)]) = Dashboard.total data + v
      ∧ ∀ seg ∈ Dashboard.segments (data ++ [(k, v)]),
          seg.percentage = seg.count / (Dashboard.total data + v) * 100 := by
  have htot : Dashboard.total (data ++ [(k, v)]) = Dashboard.total data + v := by
    simp [Dashboard.total]
  refine ⟨?_, htot, ?_⟩
  · intro seg hseg
    unfold Dashboard.segments at hseg
    obtain ⟨s, hs, rfl⟩ := List.mem_map.mp hseg
    have hmem : s ∈ Dashboard.statusOrder := (List.mem_filter.mp hs).1
    intro he
    dsimp at he
    exact hk (he ▸ hmem)
  · intro seg hseg
    unfold Dashboard.segments at hseg
    obtain ⟨s, hs, rfl⟩ := List.mem_map.mp hseg
    dsimp
    rw [htot]

/-- Witness for the amended C6 at `{OPEN: 1}` extended with `EXTRA: 1`. -/
theorem C6_amended_witness :
    (∀ seg ∈ Dashboard.segments ([("OPEN", (1 : ℚ))] ++ [("EXTRA", 1)]), seg.status ≠ "EXTRA")
      ∧ Dashboard.total ([("OPEN", (1 : ℚ))] ++ [("EXTRA", 1)]) =
          Dashboard.total [("OPEN", (1 : ℚ))] + 1
      ∧ ∀ seg ∈ Dashboard.segments ([("OPEN", (1 : ℚ))] ++ [("EXTRA", 1)]),
          seg.percentage = seg.count / (Dashboard.total [("OPEN", (1 : ℚ))] + 1) * 100 :=
  C6_amended_unknown_key_no_segment_but_counted [("OPEN", (1 : ℚ))] "EXTRA" 1 (by decide)

/-- Every rendered arc length arises from a segment via the floored
formula. -/
theorem dashArray_of_mem_renderFrom (c : ℚ) :
    ∀ (l : List Segment) (acc : ℚ) (r : RenderedSegment),
      r ∈ Dashboard.renderFrom c l acc →
      ∃ seg ∈ l, r.dashArray = max seg.percentage Dashboard.minVisiblePercentage / 100 * c := by
  intro l
  induction l with
  | nil =>
    intro acc r hr
    simp [Dashboard.renderFrom] at hr
  | cons seg rest ih =>
    intro acc r hr
    rw [Dashboard.renderFrom] at hr
    rcases List.mem_cons.mp hr with h | h
    · exact ⟨seg, List.mem_cons_self _ _, by rw [h]⟩
    · obtain ⟨s, hs, he⟩ := ih (acc + seg.percentage) r h
      exact ⟨s, List.mem_cons_of_mem _ hs, he⟩

/-- C7: whatever the counts map (negative values included), every rendered
segment has a strictly positive dash-array arc length, bounded below by
the `0.5%` floor share of the (positive) circumference: the emitted arc
length is never negative. -/
theorem C7_arc_length_never_negative (data : CountsMap) (c : ℚ) (hc : 0 < c) :
    ∀ r ∈ Dashboard.renderSegments data c,
      Dashboard.minVisiblePercentage / 100 * c ≤ r.dashArray ∧ 0 < r.dashArray := by
  intro r hr
  obtain ⟨seg, _, he⟩ := dashArray_of_mem_renderFrom c (Dashboard.segments data) 0 r hr
  have hfloor : Dashboard.minVisiblePercentage / 100 * c ≤ r.dashArray := by
    rw [he]
    have h1 : Dashboard.minVisiblePercentage ≤
        max seg.percentage Dashboard.minVisiblePercentage := le_max_right _ _
    have h2 : Dashboard.minVisiblePercentage / 100 ≤
        max seg.percentage Dashboard.minVisiblePercentage / 100 := by linarith
    exact mul_le_mul_of_nonneg_right h2 (le_of_lt hc)
  refine ⟨hfloor, lt_of_lt_of_le ?_ hfloor⟩
  rw [show Dashboard.minVisiblePercentage / 100 = (1 : ℚ) / 200 by
    norm_num [Dashboard.minVisiblePercentage]]
  exact mul_pos (by norm_num) hc

/-- Witness for C7 at `{OPEN: 1}` with circumference `100`: the single
rendered segment spans the whole circle (`dashArray = 100`), which is
positive and at least the floor share. -/
theorem C7_witness :
    Dashboard.minVisiblePercentage / 100 * 100 ≤
        (RenderedSegment.mk "OPEN" (some "#3b82f6") 100 0).dashArray
      ∧ 0 < (RenderedSegment.mk "OPEN" (some "#3b82f6") 100 0).dashArray := by
  have h := C7_arc_length_never_negative [("OPEN", (1 : ℚ))] 100 (by norm_num)
    (RenderedSegment.mk "OPEN" (some "#3b82f6") 100 0)
    (by simp [Dashboard.renderSegments, Dashboard.renderFrom, Dashboard.segments,
        Dashboard.statusOrder, Dashboard.hasPositive, Dashboard.total, valueOf, List.lookup] <;>
      norm_num [Dashboard.minVisiblePercentage])
  exact h

/-- C8: clicking the rendered segment of a category fires `handleCardClick`
with that segment's status: the external `onNavigateToTickets` callback is
invoked exactly once, with the category label as its only argument, and
navigation targets the filtered ticket view for that label. -/
theorem C8_click_invokes_callback_once (data : CountsMap) (c : ℚ) (r : RenderedSegment)
    (hr : r ∈ Dashboard.renderSegments data c) :
    (Dashboard.handleCardClick true r.status).callbackCalls.length = 1
      ∧ (Dashboard.handleCardClick true r.status).callbackCalls = [r.status]
      ∧ (Dashboard.handleCardClick true r.status).navigateTo =
          "/home/ticket/show?status=" ++ r.status :=
  ⟨rfl, rfl, rfl⟩

/-- Witness for C8: in a chart whose PENDING segment is rendered, clicking
it invokes the callback exactly once with argument `PENDING`. -/
theorem C8_witness :
    (Dashboard.handleCardClick true "PENDING").callbackCalls.length = 1
      ∧ (Dashboard.handleCardClick true "PENDING").callbackCalls = ["PENDING"] := by
  have h := C8_click_invokes_callback_once [("PENDING", (3 : ℚ))] 1
    (RenderedSegment.mk "PENDING" (some "#ef4444") 1 0)
    (by simp [Dashboard.renderSegments, Dashboard.renderFrom, Dashboard.segments,
        Dashboard.statusOrder, Dashboard.hasPositive, Dashboard.total, valueOf, List.lookup] <;>
      norm_num [Dashboard.minVisiblePercentage])
  exact ⟨h.1, h.2.1⟩

/-- C9: on the company list page, the Actions column renders exactly when
the current user's `departmentId` equals the SuperAdmin constant `1`, and
for any non-SuperAdmin user the update handler issues no request and shows
the permission error while the delete handler shows the permission error
and returns the company list unchanged. -/
theorem C9_superadmin_gates_company_actions (userData : Option CompanyPage.UserData)
    (companies : List CompanyPage.Company) (sel : CompanyPage.Company)
    (apiCode1 : Bool) (serverMessage : String) :
    (CompanyPage.renderActionsColumn userData = true ↔
        ∃ u, userData = some u ∧ u.departmentId = 1)
      ∧ (CompanyPage.isSuperAdmin userData = false →
          (CompanyPage.handleUpdate userData (some sel) apiCode1 serverMessage).1 = false
            ∧ (CompanyPage.handleUpdate userData (some sel) apiCode1 serverMessage).2 =
                [CompanyPage.ToastMessage.errorNoPermissionEdit]
            ∧ (CompanyPage.handleDelete userData (some sel) companies apiCode1 serverMessage).1 =
                companies
            ∧ (CompanyPage.handleDelete userData (some sel) companies apiCode1 serverMessage).2 =
                [CompanyPage.ToastMessage.errorNoPermissionDelete]) := by
  constructor
  · cases userData with
    | none => simp [CompanyPage.renderActionsColumn, CompanyPage.isSuperAdmin]
    | some u => simp [CompanyPage.renderActionsColumn, CompanyPage.isSuperAdmin]
  · intro h
    refine ⟨?_, ?_, ?_, ?_⟩ <;>
      simp [CompanyPage.handleUpdate, CompanyPage.handleDelete, h]

/-- Witness for C9 with a user of department `2`: the Actions column is
gated on department `1`, the update handler sends nothing and toasts the
edit permission error, the delete handler keeps the single-company list
and toasts the delete permission error. -/
theorem C9_witness :
    (CompanyPage.renderActionsColumn
          (some (CompanyPage.UserData.mk none 2 none "user" none)) = true ↔
        ∃ u, some (CompanyPage.UserData.mk none 2 none "user" none) = some u ∧
          u.departmentId = 1)
      ∧ (CompanyPage.handleUpdate (some (CompanyPage.UserData.mk none 2 none "user" none))
            (some (CompanyPage.Company.mk 7 "n" "e" "p" "a" "l")) true "m").1 = false
      ∧ (CompanyPage.handleUpdate (some (CompanyPage.UserData.mk none 2 none "user" none))
            (some (CompanyPage.Company.mk 7 "n" "e" "p" "a" "l")) true "m").2 =
          [CompanyPage.ToastMessage.errorNoPermissionEdit]
      ∧ (CompanyPage.handleDelete (some (CompanyPage.UserData.mk none 2 none "user" none))
            (some (CompanyPage.Company.mk 7 "n" "e" "p" "a" "l"))
            [CompanyPage.Company.mk 7 "n" "e" "p" "a" "l"] true "m").1 =
          [CompanyPage.Company.mk 7 "n" "e" "p" "a" "l"]
      ∧ (CompanyPage.handleDelete (some (CompanyPage.UserData.mk none 2 none "user" none))
            (some (CompanyPage.Company.mk 7 "n" "e" "p" "a" "l"))
            [CompanyPage.Company.mk 7 "n" "e" "p" "a" "l"] true "m").2 =
          [CompanyPage.ToastMessage.errorNoPermissionDelete] := by
  have h := C9_superadmin_gates_company_actions
    (some (CompanyPage.UserData.mk none 2 none "user" none))
    [CompanyPage.Company.mk 7 "n" "e" "p" "a" "l"]
    (CompanyPage.Company.mk 7 "n" "e" "p" "a" "l") true "m"
  have hfalse : CompanyPage.isSuperAdmin
      (some (CompanyPage.UserData.mk none 2 none "user" none)) = false := by
    simp [CompanyPage.isSuperAdmin]
  have h2 := h.2 hfalse
  exact ⟨h.1, h2.1, h2.2.1, h2.2.2.1, h2.2.2.2⟩

/-- The two render loops are the same function of segments, accumulator
and circumference. -/
theorem renderFrom_equivalent (c : ℚ) :
    ∀ (l : List Segment) (acc : ℚ),
      Dashboard2.renderFrom c l acc = Dashboard.renderFrom c l acc := by
  intro l
  induction l with
  | nil => intro acc; rfl
  | cons seg rest ih =>
    intro acc
    simp [Dashboard.renderFrom, Dashboard2.renderFrom, ih,
      Dashboard.minVisiblePercentage, Dashboard2.minVisiblePercentage]

/-- C10: the duplicate `DonutChart` of the unnamed dashboard file computes
the same total, the same segment list and the same arc geometry (dash
arrays and dash offsets) as the `DashboardHome.tsx` one on every counts
map and circumference, and takes the same empty-state branch; the two
differ only in the hover-tooltip affordance, which carries no segment
data. -/
theorem C10_duplicate_chart_equivalent (data : CountsMap) (c : ℚ) :
    Dashboard2.total data = Dashboard.total data
      ∧ Dashboard2.segments data = Dashboard.segments data
      ∧ Dashboard2.renderSegments data c = Dashboard.renderSegments data c
      ∧ Dashboard2.DonutChart data c = Dashboard.DonutChart data c := by
  have htot : Dashboard2.total data = Dashboard.total data := rfl
  have hseg : Dashboard2.segments data = Dashboard.segments data := rfl
  have hrend : Dashboard2.renderSegments data c = Dashboard.renderSegments data c := by
    unfold Dashboard.renderSegments Dashboard2.renderSegments
    rw [hseg, renderFrom_equivalent]
  refine ⟨htot, hseg, hrend, ?_⟩
  unfold Dashboard.DonutChart Dashboard2.DonutChart
  rw [htot, hrend]

end CRM
